import Mathlib

/-!
Verification of the system-monitor metrics engine (`src/system-monitor/metrics_api.py`)
against its natural-language specification.

The shallow embedding below translates the engine's data model and its four
operations (`ingest_metrics`, `list_devices`, `get_device_metrics`,
`get_latest_metrics`) into executable Lean definitions.

Modelling conventions, stated once here:

* Python `datetime` values are modelled by the `DateTime` structure
  (year/month/day/hour/minute/second/microsecond as `Nat`).  Ages and
  instants are measured in integer microseconds.  Python computes
  `age_seconds` as a float via `timedelta.total_seconds()` and compares it
  with `60`; for microsecond-granular datetimes of realistic magnitude that
  float arithmetic is exact, so `age_seconds > 60` is modelled exactly as
  `age_micros > 60 * 1000000`.  The display-only rounding
  `round(age_seconds, 1)` is not modelled: `age_seconds` fields carry the
  unrounded age in microseconds.
* `datetime.utcnow().isoformat() + "Z"` is modelled by `engineStamp`, which
  builds the actual character string (fractional part omitted when the
  microsecond field is zero, exactly as `isoformat` does).
  `datetime.fromisoformat(s.replace('Z', '+00:00'))` is modelled by
  `parseReceived`, an executable parser over the pre-3.11 `fromisoformat`
  grammar `YYYY-MM-DD[<sep>HH[:MM[:SS[.fff[fff]]]][±HH:MM]]` with the same
  range checks as the `datetime` constructor (rarely used forms such as
  offsets with seconds are out of the modelled grammar).  The separator
  character after the date is ignored, as in CPython.  Each operation is
  given a single `now : DateTime` even though Python calls
  `datetime.now(...)` once per stored device.
* A stored report is the JSON object received by `ingest_metrics` with the
  keys the engine reads modelled as typed optional fields (`Report`).  The
  `metrics` value can be absent, a mapping from subsystem names to readings,
  or some non-mapping JSON value (`MetricsField.notMapping`), because the
  engine's behaviour differs in that last case.  A subsystem reading is
  modelled by its `status` field only; the numeric fields
  (`usage_percent`, `connections`, ...) feed only the display-only `detail`
  strings of the dashboard, which are not modelled (their float formatting
  is outside the embedding), and the advisory most-recent-device selection
  that feeds them is likewise omitted: neither affects any status,
  count or flag computed below.
* The store is an insertion-ordered association list, matching Python dict
  iteration order; `storeSet` overwrites in place like dict assignment.
-/

namespace SysMon

/-! ### Characters and fixed-width decimal fields -/

def digitVal (c : Char) : Nat := c.toNat - 48

def digitChar (n : Nat) : Char := Char.ofNat (48 + n)

/-- Parse exactly one decimal digit. -/
def parseDigit (cs : List Char) : Option (Nat × List Char) :=
  match cs with
  | c :: r => if c.isDigit then some (digitVal c, r) else none
  | [] => none

/-- Parse exactly two decimal digits. -/
def parse2 (cs : List Char) : Option (Nat × List Char) :=
  match parseDigit cs with
  | none => none
  | some (a, r) =>
    match parseDigit r with
    | none => none
    | some (b, r2) => some (10 * a + b, r2)

/-- Parse exactly three decimal digits. -/
def parse3 (cs : List Char) : Option (Nat × List Char) :=
  match parseDigit cs with
  | none => none
  | some (a, r) =>
    match parse2 r with
    | none => none
    | some (b, r2) => some (100 * a + b, r2)

/-- Parse exactly four decimal digits. -/
def parse4 (cs : List Char) : Option (Nat × List Char) :=
  match parse2 cs with
  | none => none
  | some (a, r) =>
    match parse2 r with
    | none => none
    | some (b, r2) => some (100 * a + b, r2)

/-- Parse exactly six decimal digits. -/
def parse6 (cs : List Char) : Option (Nat × List Char) :=
  match parse2 cs with
  | none => none
  | some (a, r) =>
    match parse2 r with
    | none => none
    | some (b, r2) =>
      match parse2 r2 with
      | none => none
      | some (c, r3) => some (10000 * a + 100 * b + c, r3)

/-- Two-digit zero-padded decimal rendering, as produced by `isoformat`. -/
def pad2 (n : Nat) : List Char := [digitChar (n / 10), digitChar (n % 10)]

/-- Four-digit zero-padded decimal rendering. -/
def pad4 (n : Nat) : List Char := pad2 (n / 100) ++ pad2 (n % 100)

/-- Six-digit zero-padded decimal rendering. -/
def pad6 (n : Nat) : List Char := pad2 (n / 10000) ++ pad2 (n / 100 % 100) ++ pad2 (n % 100)

/-! ### Datetimes, the engine clock format, and `fromisoformat` -/

/-- A Python `datetime` value (proleptic Gregorian calendar, microsecond
precision), the clock values handed to the engine. -/
structure DateTime where
  year : Nat
  month : Nat
  day : Nat
  hour : Nat
  minute : Nat
  second : Nat
  usec : Nat
  deriving Repr, DecidableEq

/-- Leap-year rule of the Gregorian calendar, as in Python `calendar`. -/
def isLeapYear (y : Nat) : Bool := y % 4 == 0 && (y % 100 != 0 || y % 400 == 0)

/-- Month lengths used by the `datetime` constructor's range validation. -/
def daysInMonth (y m : Nat) : Nat :=
  if m = 2 then (if isLeapYear y then 29 else 28)
  else if m = 4 ∨ m = 6 ∨ m = 9 ∨ m = 11 then 30
  else 31

/-- Field ranges guaranteed by every Python `datetime` value. -/
def Valid (dt : DateTime) : Prop :=
  1 ≤ dt.year ∧ dt.year ≤ 9999 ∧ 1 ≤ dt.month ∧ dt.month ≤ 12 ∧
  1 ≤ dt.day ∧ dt.day ≤ daysInMonth dt.year dt.month ∧
  dt.hour ≤ 23 ∧ dt.minute ≤ 59 ∧ dt.second ≤ 59 ∧ dt.usec ≤ 999999

instance (dt : DateTime) : Decidable (Valid dt) := by
  unfold Valid; infer_instance

/-- Days from a fixed origin to a civil date (Gregorian), the arithmetic
underlying `datetime` subtraction. -/
def daysFromCivil (y m d : Nat) : Nat :=
  let y2 := if m ≤ 2 then y - 1 else y
  let era := y2 / 400
  let yoe := y2 % 400
  let mp := (m + 9) % 12
  let doy := (153 * mp + 2) / 5 + d - 1
  let doe := yoe * 365 + yoe / 4 - yoe / 100 + doy
  era * 146097 + doe

/-- Microseconds from the origin to the given civil instant. -/
def civilMicros (y mo d h mi s us : Nat) : Int :=
  ((daysFromCivil y mo d) * 86400 + h * 3600 + mi * 60 + s) * 1000000 + us

def civilMicrosDT (dt : DateTime) : Int :=
  civilMicros dt.year dt.month dt.day dt.hour dt.minute dt.second dt.usec

/-- Instant at which an operation runs, in microseconds: the model of the
`datetime.now(...)` calls inside the read operations. -/
def nowMicros (now : DateTime) : Int := civilMicrosDT now

/-- Character rendering of `datetime.isoformat()`: the fractional part is
present exactly when the microsecond field is nonzero. -/
def isoformatChars (dt : DateTime) : List Char :=
  pad4 dt.year ++ '-' :: pad2 dt.month ++ '-' :: pad2 dt.day ++
  'T' :: pad2 dt.hour ++ ':' :: pad2 dt.minute ++ ':' :: pad2 dt.second ++
  (if dt.usec = 0 then [] else '.' :: pad6 dt.usec)

/-- The string `datetime.utcnow().isoformat() + "Z"` written by
`ingest_metrics` into `data['received_at']` (metrics_api.py line 29). -/
def engineStamp (dt : DateTime) : String := ⟨isoformatChars dt ++ ['Z']⟩

/-- The characters of `"+00:00"`. -/
def tzChars : List Char := ['+', '0', '0', ':', '0', '0']

/-- Model of `s.replace('Z', '+00:00')`: every `'Z'` becomes `"+00:00"`. -/
def replaceZ : List Char → List Char
  | [] => []
  | c :: cs => if c = 'Z' then tzChars ++ replaceZ cs else c :: replaceZ cs

/-- Model of the pre-3.11 `fromisoformat` timezone suffix `±HH:MM`; returns
the offset in minutes.  The empty suffix is a naive datetime (offset 0 in
the single-clock model). -/
def parseTZ (cs : List Char) : Option Int :=
  match cs with
  | [] => some 0
  | c :: r =>
    if c = '+' ∨ c = '-' then
      match parse2 r with
      | none => none
      | some (hh, r1) =>
        match r1 with
        | ':' :: r2 =>
          match parse2 r2 with
          | none => none
          | some (mm, r3) =>
            if r3 = [] ∧ hh * 60 + mm < 1440 then
              some ((if c = '-' then (-1 : Int) else 1) * (hh * 60 + mm))
            else none
        | _ => none
    else none

/-- Model of `_parse_isoformat_time` up to the timezone: `HH[:MM[:SS[.fff[fff]]]]`.
Returns hour, minute, second, microsecond, and the unconsumed timezone suffix. -/
def parseTimeCore (cs : List Char) : Option (Nat × Nat × Nat × Nat × List Char) :=
  match parse2 cs with
  | none => none
  | some (h, r1) =>
    match r1 with
    | ':' :: r2 =>
      (match parse2 r2 with
       | none => none
       | some (mi, r3) =>
         match r3 with
         | ':' :: r4 =>
           (match parse2 r4 with
            | none => none
            | some (s, r5) =>
              match r5 with
              | '.' :: r6 =>
                (match parse6 r6 with
                 | some (us, r7) => some (h, mi, s, us, r7)
                 | none =>
                   match parse3 r6 with
                   | some (ms, r7) => some (h, mi, s, ms * 1000, r7)
                   | none => none)
              | _ => some (h, mi, s, 0, r5))
         | _ => some (h, mi, 0, 0, r3))
    | _ => some (h, 0, 0, 0, r1)

/-- Model of `datetime.fromisoformat` (pre-3.11 grammar, see the header
note), returning the instant in microseconds with any `±HH:MM` offset
already subtracted (so equal instants compare equal). -/
def parseIsoChars (cs : List Char) : Option Int :=
  match parse4 cs with
  | none => none
  | some (y, r1) =>
    match r1 with
    | '-' :: r2 =>
      (match parse2 r2 with
       | none => none
       | some (mo, r3) =>
         match r3 with
         | '-' :: r4 =>
           (match parse2 r4 with
            | none => none
            | some (d, r5) =>
              if 1 ≤ y ∧ 1 ≤ mo ∧ mo ≤ 12 ∧ 1 ≤ d ∧ d ≤ daysInMonth y mo then
                match r5 with
                | [] => some (civilMicros y mo d 0 0 0 0)
                | _ :: tr =>
                  match parseTimeCore tr with
                  | none => none
                  | some (h, mi, s, us, tzr) =>
                    if h ≤ 23 ∧ mi ≤ 59 ∧ s ≤ 59 then
                      match parseTZ tzr with
                      | none => none
                      | some off => some (civilMicros y mo d h mi s us - off * 60000000)
                    else none
              else none)
         | _ => none)
    | _ => none

/-- Model of `fromisoformat(data['received_at'].replace('Z', '+00:00'))` on
an optional `received_at` value: `none` when the key is missing or the
string does not parse (the `except` branches of the read operations). -/
def parseReceived (ra : Option String) : Option Int :=
  match ra with
  | none => none
  | some s => parseIsoChars (replaceZ s.data)

/-! ### Reports, the store, and the freshness classifier -/

/-- A subsystem reading as the engine reads it: only the `status` field is
consulted by status aggregation (`metrics[k].get('status', 'unknown')`). -/
structure Reading where
  status : Option String
  deriving Repr, DecidableEq

/-- The `metrics` value of a report: absent, a mapping from subsystem names
to readings, or some non-mapping JSON value (on which the engine's
`.get`/`in` operations raise). -/
inductive MetricsField where
  | absent
  | notMapping
  | mapping (entries : List (String × Reading))
  deriving Repr, DecidableEq

/-- A JSON object accepted by `/api/metrics/ingest`, with every key the
engine reads as a typed optional field.  `received_at` is producer-writable
in the raw payload but always overwritten at ingestion. -/
structure Report where
  device_id : Option String
  hostname : Option String
  platform : Option String
  device_type : Option String
  overall_status : Option String
  metrics : MetricsField
  received_at : Option String
  deriving Repr, DecidableEq

/-- The in-memory `_metrics_store` dict: an insertion-ordered association
list from device id to the stored payload. -/
abbrev Store := List (String × Report)

/-- Dict update `_metrics_store[device_id] = data`: overwrite in place,
else append (Python dicts preserve insertion order on overwrite). -/
def storeSet : Store → String → Report → Store
  | [], k, v => [(k, v)]
  | (k2, v2) :: rest, k, v =>
    if k2 = k then (k, v) :: rest else (k2, v2) :: storeSet rest k v

/-- Dict lookup `_metrics_store[device_id]` / `device_id in _metrics_store`. -/
def lookupStore : Store → String → Option Report
  | [], _ => none
  | (k, v) :: rest, d => if k = d then some v else lookupStore rest d

/-- Subsystem-reading lookup `metrics[k]` on a reading mapping. -/
def lookupReading : List (String × Reading) → String → Option Reading
  | [], _ => none
  | (k, v) :: rest, d => if k = d then some v else lookupReading rest d

/-- The fixed freshness window `_MAX_AGE_SECONDS` (metrics_api.py line 16). -/
def MAX_AGE_SECONDS : Nat := 60

/-- The freshness window in microseconds. -/
def windowMicros : Int := (MAX_AGE_SECONDS : Int) * 1000000

/-- The staleness computation of `list_devices` / `get_device_metrics`
(lines 53-58 and 81-87): parse `received_at`, compare the age with the
window; any failure (missing key, unparsable string) forces stale. -/
def isStale (ra : Option String) (now : DateTime) : Bool :=
  match parseReceived ra with
  | none => true
  | some t => decide (nowMicros now - t > windowMicros)

/-- The freshness computation of `get_latest_metrics` (lines 137-143):
`is_online = age_seconds <= _MAX_AGE_SECONDS`, with the `except` branch
forcing offline. -/
def isOnline (ra : Option String) (now : DateTime) : Bool :=
  match parseReceived ra with
  | none => false
  | some t => decide (nowMicros now - t ≤ windowMicros)

/-! ### Ingestion (`ingest_metrics`, lines 19-43) -/

/-- Outcome of `POST /api/metrics/ingest`: 200 with the receipt, 400 on the
validation check, or 500 from the blanket `except Exception` handler. -/
inductive IngestResult where
  | ok (device_id : String) (received_at : String)
  | validationError
  | internalError
  deriving Repr, DecidableEq

/-- Whether the post-write log line
`data.get('metrics', {}).get('cpu', {}).get('usage_percent', 'N/A')`
(line 34) raises: it does exactly when `metrics` is present and not a
mapping (readings themselves are mappings in the modelled payloads). -/
def printRaises (data : Report) : Bool :=
  match data.metrics with
  | .notMapping => true
  | _ => false

/-- The ingest handler.  `payload = none` models a request whose
`request.get_json()` is `None` or `{}` (both fail the `not data or
'device_id' not in data` check; a JSON object without `device_id` is a
`Report` with `device_id := none`).  The store write happens before the
log line, so a post-write exception still leaves the entry stored. -/
def ingest_metrics (store : Store) (payload : Option Report) (now : DateTime) :
    IngestResult × Store :=
  match payload with
  | none => (.validationError, store)
  | some data =>
    match data.device_id with
    | none => (.validationError, store)
    | some did =>
      let stamped := { data with received_at := some (engineStamp now) }
      let store2 := storeSet store did stamped
      if printRaises stamped then (.internalError, store2)
      else (.ok did (engineStamp now), store2)

/-! ### Device list (`list_devices`, lines 46-69) -/

/-- One element of the `devices` array returned by `/api/metrics/devices`. -/
structure DeviceSummary where
  device_id : String
  hostname : String
  device_type : String
  overall_status : String
  last_seen : Option String
  is_stale : Bool
  deriving Repr, DecidableEq

/-- The device-list handler. -/
def list_devices (store : Store) (now : DateTime) : List DeviceSummary :=
  store.map fun p =>
    { device_id := p.1,
      hostname := p.2.hostname.getD "Unknown",
      device_type := p.2.device_type.getD "unknown",
      overall_status :=
        if isStale p.2.received_at now then "offline"
        else p.2.overall_status.getD "unknown",
      last_seen := p.2.received_at,
      is_stale := isStale p.2.received_at now }

/-! ### Device detail (`get_device_metrics`, lines 72-89) -/

/-- Outcome of `/api/metrics/device/<device_id>`: 404, or the stored payload
with `is_stale` (and, when the timestamp parses, `age_seconds`) added. -/
inductive DetailResult where
  | notFound
  | found (data : Report) (is_stale : Bool) (age_micros : Option Int)
  deriving Repr, DecidableEq

/-- The device-detail handler. -/
def get_device_metrics (store : Store) (did : String) (now : DateTime) : DetailResult :=
  match lookupStore store did with
  | none => .notFound
  | some data =>
    match parseReceived data.received_at with
    | none => .found data true none
    | some t => .found data (decide (nowMicros now - t > windowMicros))
        (some (nowMicros now - t))

/-! ### Dashboard (`get_latest_metrics`, lines 92-228) -/

/-- One element of the dashboard's `devices` array (line 168-177). -/
structure DashDevice where
  device_id : String
  hostname : String
  platform : String
  is_online : Bool
  overall_status : String
  metrics : MetricsField
  last_seen : Option String
  age_micros : Option Int
  deriving Repr, DecidableEq

/-- The dashboard's `summary` object. -/
structure Summary where
  total_devices : Nat
  online : Nat
  offline : Nat
  healthy : Nat
  warning : Nat
  critical : Nat
  deriving Repr, DecidableEq

/-- The `status` fields of the dashboard's six `system_status` entries (the
display-only `detail` strings are not modelled). -/
structure SystemStatus where
  network : String
  compute : String
  storage : String
  cooling : String
  security : String
  power : String
  deriving Repr, DecidableEq

/-- The dashboard response (its `timestamp` string is display-only and not
modelled). -/
structure DashboardResponse where
  status : String
  devices : List DashDevice
  summary : Summary
  system_status : SystemStatus
  deriving Repr, DecidableEq

/-- The fixed response returned when `_metrics_store` is empty
(lines 96-116). -/
def noDataResponse : DashboardResponse :=
  { status := "no_data",
    devices := [],
    summary := { total_devices := 0, online := 0, offline := 0,
                 healthy := 0, warning := 0, critical := 0 },
    system_status := { network := "unknown", compute := "unknown",
                       storage := "unknown", cooling := "unknown",
                       security := "unknown", power := "unknown" } }

/-- The `aggregate_status` helper (lines 180-189), verbatim. -/
def aggregate_status (statuses : List String) : String :=
  if statuses.isEmpty then "unknown"
  else if statuses.contains "critical" then "critical"
  else if statuses.contains "warning" then "warning"
  else if statuses.all (fun s => s == "healthy") then "healthy"
  else "unknown"

/-- Status contributed by subsystem `k` of a metrics value:
`metrics[k].get('status', 'unknown')` when `k in metrics`, nothing when the
key is absent or the metrics value is not a mapping. -/
def subStatus (mf : MetricsField) (k : String) : Option String :=
  match mf with
  | .mapping m =>
    match lookupReading m k with
    | some rd => some (rd.status.getD "unknown")
    | none => none
  | _ => none

/-- Per-device data produced by one iteration of the dashboard loop
(lines 134-177): the `devices` element plus this device's contributions to
the summary counters and the four status lists. -/
structure DevContrib where
  dev : DashDevice
  online : Bool
  status : String
  cpuS : Option String
  memS : Option String
  diskS : Option String
  netS : Option String
  deriving Repr, DecidableEq

/-- The record built by one loop iteration when it does not raise. -/
def contribTemplate (now : DateTime) (did : String) (data : Report) : DevContrib :=
  let online := isOnline data.received_at now
  { dev :=
      { device_id := did,
        hostname := data.hostname.getD "Unknown",
        platform := data.platform.getD "Unknown",
        is_online := online,
        overall_status :=
          if online then data.overall_status.getD "unknown" else "offline",
        metrics := (match data.metrics with | .absent => .mapping [] | m => m),
        last_seen := data.received_at,
        age_micros :=
          match parseReceived data.received_at with
          | none => none
          | some t =>
            if nowMicros now - t = 999000000 then none
            else some (nowMicros now - t) },
    online := online,
    status := data.overall_status.getD "unknown",
    cpuS := if online then subStatus data.metrics "cpu" else none,
    memS := if online then subStatus data.metrics "memory" else none,
    diskS := if online then subStatus data.metrics "disk" else none,
    netS := if online then subStatus data.metrics "network" else none }

/-- One dashboard loop iteration.  For an online device whose `metrics`
value is not a mapping, `'cpu' in metrics` (line 157) raises, aborting the
request: modelled as `none`.  The `age_micros = 999000000` exclusion mirrors
`round(age_seconds, 1) if age_seconds != 999 else None` (line 176), 999
being the sentinel set by the `except` branch. -/
def contribOf (now : DateTime) (did : String) (data : Report) : Option DevContrib :=
  if isOnline data.received_at now && printRaises data then none
  else some (contribTemplate now did data)

/-- The dashboard loop over the whole store, in iteration order. -/
def dashContribs (now : DateTime) : Store → Option (List DevContrib)
  | [] => some []
  | (did, data) :: rest =>
    match contribOf now did data with
    | none => none
    | some c =>
      match dashContribs now rest with
      | none => none
      | some cs => some (c :: cs)

/-- The dashboard handler.  Counter increments of the loop are expressed as
`countP` over the contributions; `memory` statuses are collected (line
159-160) but feed no `system_status` entry, exactly as in the source. -/
def get_latest_metrics (store : Store) (now : DateTime) : Option DashboardResponse :=
  if store.isEmpty then some noDataResponse
  else
    match dashContribs now store with
    | none => none
    | some cs =>
      let onlineCount := cs.countP (·.online)
      some
        { status := "ok",
          devices := cs.map (·.dev),
          summary :=
            { total_devices := store.length,
              online := onlineCount,
              offline := cs.countP (fun c => !c.online),
              healthy := cs.countP (fun c => c.online && c.status == "healthy"),
              warning := cs.countP (fun c => c.online && c.status == "warning"),
              critical := cs.countP (fun c => c.online && c.status == "critical") },
          system_status :=
            { network := aggregate_status (cs.filterMap (·.netS)),
              compute := aggregate_status (cs.filterMap (·.cpuS)),
              storage := aggregate_status (cs.filterMap (·.diskS)),
              cooling := "healthy",
              security := "healthy",
              power := if onlineCount > 0 then "healthy" else "unknown" } }

/-! ### Spec-side definitions, for refinement comparisons

These two definitions follow the specification's words (spec.md sections
4.3.1 and 4.3.2 / claims C1 and C2), to be compared with what the code
computes. -/

/-- Device status as the spec states it: staleness forces `offline`; a
fresh device reports its `overall_status`, defaulting to `unknown` when it
is absent or not one of the four recognized values. -/
def specDeviceStatus (stale : Bool) (os : Option String) : String :=
  if stale then "offline"
  else
    match os with
    | none => "unknown"
    | some s =>
      if s = "healthy" ∨ s = "warning" ∨ s = "critical" ∨ s = "unknown" then s
      else "unknown"

/-- Subsystem fleet rollup as the spec states it, applied to the collected
status set S. -/
def specSubsystemRollup (S : List String) : String :=
  if S = [] then "unknown"
  else if "critical" ∈ S then "critical"
  else if "warning" ∈ S then "warning"
  else if ∀ s ∈ S, s = "healthy" then "healthy"
  else "unknown"

/-- The set S of claim C2 for one subsystem key: the `status` field of the
corresponding reading of every fresh device that has that reading (a
reading without a `status` field contributes `unknown`, the engine's
permissive-read default); stale devices contribute nothing. -/
def subsystemStatuses (store : Store) (now : DateTime) (k : String) : List String :=
  store.filterMap fun p =>
    if isOnline p.2.received_at now then subStatus p.2.metrics k else none

/-! ### Lock structure of the handlers (claim C9)

The concurrency claim is about where the single `_metrics_lock` is held
relative to the classification/aggregation work, which is a syntactic
property of the `with _metrics_lock:` blocks.  Each handler is abstracted
to its sequence of actions with the lock boundaries placed exactly where
the `with` block of the source puts them. -/

inductive EngineAction where
  | acquireLock
  | releaseLock
  | copyStore
  | writeEntry
  | classifyAggregate
  | buildResponse
  deriving Repr, DecidableEq

/-- `ingest_metrics` (lines 31-32): only the single dict assignment is
inside the `with` block. -/
def ingestLockActions : List EngineAction :=
  [.acquireLock, .writeEntry, .releaseLock]

/-- `list_devices` (lines 49-69): the whole loop — staleness classification
and response assembly — runs inside the `with` block, and no copy of the
store is ever taken. -/
def listDevicesLockActions : List EngineAction :=
  [.acquireLock, .classifyAggregate, .buildResponse, .releaseLock]

/-- `get_latest_metrics` (lines 95-228): classification, aggregation and
response assembly all run inside the `with` block; no copy is taken. -/
def dashboardLockActions : List EngineAction :=
  [.acquireLock, .classifyAggregate, .buildResponse, .releaseLock]

/-- Whether some classification/aggregation action is performed while the
lock is held (`depth` tracks how many acquisitions are outstanding). -/
def classifiesUnderLock : List EngineAction → Nat → Bool
  | [], _ => false
  | a :: rest, depth =>
    match a with
    | .acquireLock => classifiesUnderLock rest (depth + 1)
    | .releaseLock => classifiesUnderLock rest (depth - 1)
    | .classifyAggregate => depth > 0 || classifiesUnderLock rest depth
    | _ => classifiesUnderLock rest depth

/-! ### Lemmas: fixed-width decimal fields round-trip -/

lemma digitChar_facts : ∀ k, k < 10 →
    ((digitChar k).isDigit = true ∧ digitVal (digitChar k) = k ∧ digitChar k ≠ 'Z') := by
  decide

lemma parseDigit_digitChar (k : Nat) (hk : k < 10) (r : List Char) :
    parseDigit (digitChar k :: r) = some (k, r) := by
  obtain ⟨h1, h2, _⟩ := digitChar_facts k hk
  simp [parseDigit, h1, h2]

lemma parse2_pad2 (n : Nat) (hn : n < 100) (r : List Char) :
    parse2 (pad2 n ++ r) = some (n, r) := by
  have h1 := parseDigit_digitChar (n / 10) (by omega)
  have h2 := parseDigit_digitChar (n % 10) (by omega)
  simp [pad2, parse2, h1, h2]
  omega

lemma parse4_pad4 (n : Nat) (hn : n < 10000) (r : List Char) :
    parse4 (pad4 n ++ r) = some (n, r) := by
  have h1 : ∀ r2, parse2 (pad2 (n / 100) ++ r2) = some (n / 100, r2) :=
    fun r2 => parse2_pad2 _ (by omega) r2
  have h2 : ∀ r2, parse2 (pad2 (n % 100) ++ r2) = some (n % 100, r2) :=
    fun r2 => parse2_pad2 _ (by omega) r2
  simp [pad4, parse4, List.append_assoc, h1, h2]
  omega

lemma parse6_pad6 (n : Nat) (hn : n < 1000000) (r : List Char) :
    parse6 (pad6 n ++ r) = some (n, r) := by
  have h1 : ∀ r2, parse2 (pad2 (n / 10000) ++ r2) = some (n / 10000, r2) :=
    fun r2 => parse2_pad2 _ (by omega) r2
  have h2 : ∀ r2, parse2 (pad2 (n / 100 % 100) ++ r2) = some (n / 100 % 100, r2) :=
    fun r2 => parse2_pad2 _ (by omega) r2
  have h3 : ∀ r2, parse2 (pad2 (n % 100) ++ r2) = some (n % 100, r2) :=
    fun r2 => parse2_pad2 _ (by omega) r2
  simp [pad6, parse6, List.append_assoc, h1, h2, h3]
  omega

lemma pad2_ne_z (n : Nat) (hn : n < 100) : ∀ c ∈ pad2 n, c ≠ 'Z' := by
  intro c hc
  simp [pad2] at hc
  rcases hc with h | h <;> subst h
  · exact (digitChar_facts (n / 10) (by omega)).2.2
  · exact (digitChar_facts (n % 10) (by omega)).2.2

lemma pad4_ne_z (n : Nat) (hn : n < 10000) : ∀ c ∈ pad4 n, c ≠ 'Z' := by
  unfold pad4
  exact List.forall_mem_append.mpr ⟨pad2_ne_z _ (by omega), pad2_ne_z _ (by omega)⟩

lemma pad6_ne_z (n : Nat) (hn : n < 1000000) : ∀ c ∈ pad6 n, c ≠ 'Z' := by
  unfold pad6
  exact List.forall_mem_append.mpr
    ⟨List.forall_mem_append.mpr ⟨pad2_ne_z _ (by omega), pad2_ne_z _ (by omega)⟩,
     pad2_ne_z _ (by omega)⟩

lemma replaceZ_append_z (xs : List Char) (h : ∀ c ∈ xs, c ≠ 'Z') :
    replaceZ (xs ++ ['Z']) = xs ++ tzChars := by
  induction xs with
  | nil => rfl
  | cons c cs ih =>
    have hc : c ≠ 'Z' := h c (by simp)
    simp [replaceZ, hc, ih (fun x hx => h x (by simp [hx]))]

lemma daysInMonth_le (y m : Nat) : daysInMonth y m ≤ 31 := by
  unfold daysInMonth
  split
  · split <;> omega
  · split <;> omega

lemma isoformat_ne_z (dt : DateTime) (h : Valid dt) :
    ∀ c ∈ isoformatChars dt, c ≠ 'Z' := by
  obtain ⟨hy1, hy9, hm1, hm12, hd1, hdm, hho, hmi, hs, hus⟩ := h
  have hdm31 := daysInMonth_le dt.year dt.month
  unfold isoformatChars
  refine List.forall_mem_append.mpr ⟨?_, ?_⟩
  · refine List.forall_mem_append.mpr ⟨?_,
      List.forall_mem_cons.mpr ⟨by decide, pad2_ne_z _ (by omega)⟩⟩
    refine List.forall_mem_append.mpr ⟨?_,
      List.forall_mem_cons.mpr ⟨by decide, pad2_ne_z _ (by omega)⟩⟩
    refine List.forall_mem_append.mpr ⟨?_,
      List.forall_mem_cons.mpr ⟨by decide, pad2_ne_z _ (by omega)⟩⟩
    refine List.forall_mem_append.mpr ⟨?_,
      List.forall_mem_cons.mpr ⟨by decide, pad2_ne_z _ (by omega)⟩⟩
    exact List.forall_mem_append.mpr ⟨pad4_ne_z _ (by omega),
      List.forall_mem_cons.mpr ⟨by decide, pad2_ne_z _ (by omega)⟩⟩
  · by_cases hu : dt.usec = 0
    · simp [hu]
    · simp only [hu, if_false]
      exact List.forall_mem_cons.mpr ⟨by decide, pad6_ne_z _ (by omega)⟩

lemma parseTimeCore_fmt (h mi s us : Nat) (hh : h < 100) (hmi : mi < 100)
    (hs : s < 100) (hus : us < 1000000) :
    parseTimeCore (pad2 h ++ (':' :: (pad2 mi ++ (':' :: (pad2 s ++
      ((if us = 0 then [] else '.' :: pad6 us) ++ tzChars)))))) =
      some (h, mi, s, us, tzChars) := by
  have h1 : ∀ r, parse2 (pad2 h ++ r) = some (h, r) := fun r => parse2_pad2 _ hh r
  have h2 : ∀ r, parse2 (pad2 mi ++ r) = some (mi, r) := fun r => parse2_pad2 _ hmi r
  have h3 : ∀ r, parse2 (pad2 s ++ r) = some (s, r) := fun r => parse2_pad2 _ hs r
  by_cases hu : us = 0
  · subst hu
    simp [parseTimeCore, h1, h2, h3, tzChars]
  · have h6 : ∀ r, parse6 (pad6 us ++ r) = some (us, r) := fun r => parse6_pad6 _ hus r
    simp [parseTimeCore, h1, h2, h3, h6, hu]

/-- Round trip: the string the engine writes at ingestion, after the
`replace('Z', '+00:00')` done by every read, parses back to the very
instant the engine clock produced. -/
theorem parse_engineStamp (dt : DateTime) (h : Valid dt) :
    parseReceived (some (engineStamp dt)) = some (civilMicrosDT dt) := by
  obtain ⟨hy1, hy9, hm1, hm12, hd1, hdm, hho, hmi, hs, hus⟩ := h
  have hdm31 := daysInMonth_le dt.year dt.month
  have hrz : replaceZ (isoformatChars dt ++ ['Z']) = isoformatChars dt ++ tzChars :=
    replaceZ_append_z _ (isoformat_ne_z dt ⟨hy1, hy9, hm1, hm12, hd1, hdm, hho, hmi, hs, hus⟩)
  have h4 : ∀ r, parse4 (pad4 dt.year ++ r) = some (dt.year, r) :=
    fun r => parse4_pad4 _ (by omega) r
  have hmo : ∀ r, parse2 (pad2 dt.month ++ r) = some (dt.month, r) :=
    fun r => parse2_pad2 _ (by omega) r
  have hda : ∀ r, parse2 (pad2 dt.day ++ r) = some (dt.day, r) :=
    fun r => parse2_pad2 _ (by omega) r
  have hcore := parseTimeCore_fmt dt.hour dt.minute dt.second dt.usec
    (by omega) (by omega) (by omega) (by omega)
  have htz : parseTZ tzChars = some 0 := rfl
  show parseIsoChars (replaceZ (engineStamp dt).data) = some (civilMicrosDT dt)
  have hdata : (engineStamp dt).data = isoformatChars dt ++ ['Z'] := rfl
  rw [hdata, hrz]
  unfold isoformatChars
  simp only [List.append_assoc, List.cons_append, List.nil_append]
  simp only [parseIsoChars, h4, hmo, hda, hy1, hm1, hm12, hd1, hdm, hho, hmi, hs,
    and_self, and_true, true_and, if_true, hcore, htz, ite_true]
  simp [civilMicrosDT]

/-! ### Lemmas: store operations -/

lemma lookupStore_storeSet_self (store : Store) (k : String) (v : Report) :
    lookupStore (storeSet store k v) k = some v := by
  induction store with
  | nil => simp [storeSet, lookupStore]
  | cons p rest ih =>
    by_cases h : p.1 = k
    · simp [storeSet, h, lookupStore]
    · simp [storeSet, h, lookupStore, ih]

lemma mem_storeSet (store : Store) (k : String) (v : Report) (p : String × Report)
    (h : p ∈ storeSet store k v) : p ∈ store ∨ p = (k, v) := by
  induction store with
  | nil =>
    right
    simpa [storeSet] using h
  | cons q rest ih =>
    obtain ⟨k2, v2⟩ := q
    simp only [storeSet] at h
    by_cases hq : k2 = k
    · rw [if_pos hq] at h
      rcases List.mem_cons.mp h with h | h
      · right; exact h
      · left; exact List.mem_cons_of_mem _ h
    · rw [if_neg hq] at h
      rcases List.mem_cons.mp h with h | h
      · left; rw [h]; exact List.mem_cons_self _ _
      · rcases ih h with h2 | h2
        · left; exact List.mem_cons_of_mem _ h2
        · right; exact h2

/-! ### Lemmas: the dashboard loop -/

lemma contribOf_template (now : DateTime) (did : String) (data : Report)
    (c : DevContrib) (h : contribOf now did data = some c) :
    c = contribTemplate now did data := by
  unfold contribOf at h
  split at h
  · exact absurd h (by simp)
  · exact (Option.some.inj h).symm

lemma dashContribs_map {α : Type} (now : DateTime) (store : Store)
    (cs : List DevContrib) (h : dashContribs now store = some cs)
    (f : DevContrib → α) (g : String × Report → α)
    (hfg : ∀ did data, f (contribTemplate now did data) = g (did, data)) :
    cs.map f = store.map g := by
  induction store generalizing cs with
  | nil => simp [dashContribs] at h; simp [h]
  | cons p rest ih =>
    obtain ⟨did, data⟩ := p
    unfold dashContribs at h
    cases hc : contribOf now did data with
    | none => rw [hc] at h; exact absurd h (by simp)
    | some c =>
      rw [hc] at h
      cases hr : dashContribs now rest with
      | none => rw [hr] at h; exact absurd h (by simp)
      | some cs2 =>
        rw [hr] at h
        obtain rfl : c :: cs2 = cs := Option.some.inj h
        rw [List.map_cons, List.map_cons, ih cs2 hr,
          contribOf_template now did data c hc, hfg did data]

lemma dashContribs_countP (now : DateTime) (store : Store)
    (cs : List DevContrib) (h : dashContribs now store = some cs)
    (f : DevContrib → Bool) (g : String × Report → Bool)
    (hfg : ∀ did data, f (contribTemplate now did data) = g (did, data)) :
    cs.countP f = store.countP g := by
  induction store generalizing cs with
  | nil => simp [dashContribs] at h; simp [h]
  | cons p rest ih =>
    obtain ⟨did, data⟩ := p
    unfold dashContribs at h
    cases hc : contribOf now did data with
    | none => rw [hc] at h; exact absurd h (by simp)
    | some c =>
      rw [hc] at h
      cases hr : dashContribs now rest with
      | none => rw [hr] at h; exact absurd h (by simp)
      | some cs2 =>
        rw [hr] at h
        obtain rfl : c :: cs2 = cs := Option.some.inj h
        rw [List.countP_cons, List.countP_cons, ih cs2 hr,
          contribOf_template now did data c hc, hfg did data]

lemma dashContribs_filterMap (now : DateTime) (store : Store)
    (cs : List DevContrib) (h : dashContribs now store = some cs)
    (f : DevContrib → Option String) (g : String × Report → Option String)
    (hfg : ∀ did data, f (contribTemplate now did data) = g (did, data)) :
    cs.filterMap f = store.filterMap g := by
  induction store generalizing cs with
  | nil => simp [dashContribs] at h; simp [h]
  | cons p rest ih =>
    obtain ⟨did, data⟩ := p
    unfold dashContribs at h
    cases hc : contribOf now did data with
    | none => rw [hc] at h; exact absurd h (by simp)
    | some c =>
      rw [hc] at h
      cases hr : dashContribs now rest with
      | none => rw [hr] at h; exact absurd h (by simp)
      | some cs2 =>
        rw [hr] at h
        obtain rfl : c :: cs2 = cs := Option.some.inj h
        rw [List.filterMap_cons, List.filterMap_cons, ih cs2 hr,
          contribOf_template now did data c hc, hfg did data]

/-- The two freshness computations in the source (the `is_stale` of
`list_devices` / `get_device_metrics` and the `is_online` of
`get_latest_metrics`) are complements. -/
lemma isOnline_not_isStale (ra : Option String) (now : DateTime) :
    isOnline ra now = !isStale ra now := by
  unfold isOnline isStale
  cases parseReceived ra with
  | none => rfl
  | some t =>
    dsimp only
    by_cases hc : nowMicros now - t ≤ windowMicros
    · rw [decide_eq_true hc, decide_eq_false (p := _ > _) (by omega), Bool.not_false]
    · rw [decide_eq_false hc, decide_eq_true (p := _ > _) (by omega), Bool.not_true]

/-- The code's `aggregate_status` computes exactly the spec's rollup rule. -/
lemma aggregate_status_eq_spec (l : List String) :
    aggregate_status l = specSubsystemRollup l := by
  by_cases h1 : l = []
  · simp [aggregate_status, specSubsystemRollup, h1]
  · by_cases h2 : "critical" ∈ l
    · simp [aggregate_status, specSubsystemRollup, h1, h2]
    · by_cases h3 : "warning" ∈ l
      · simp [aggregate_status, specSubsystemRollup, h1, h2, h3]
      · by_cases h4 : ∀ s ∈ l, s = "healthy"
        · simp [aggregate_status, specSubsystemRollup, h1, h2, h3, h4]
        · simp [aggregate_status, specSubsystemRollup, h1, h2, h3, h4]

/-! ### Concrete fixtures used by witnesses and counterexamples -/

/-- A concrete engine-clock instant. -/
def dtW : DateTime := ⟨2026, 3, 4, 10, 0, 0, 0⟩

/-- Thirty seconds after `dtW`: within the 60-second freshness window. -/
def nowW : DateTime := ⟨2026, 3, 4, 10, 0, 30, 0⟩

/-- Two minutes after `dtW`: outside the freshness window. -/
def nowStaleW : DateTime := ⟨2026, 3, 4, 10, 2, 0, 0⟩

/-- A payload whose `device_id` is present but the empty string. -/
def rEmptyId : Report :=
  { device_id := some "", hostname := none, platform := none, device_type := none,
    overall_status := some "healthy", metrics := .absent, received_at := none }

/-- A payload whose `metrics` value is not a mapping (for example the JSON
number `5`), making the post-write log line raise. -/
def rBad : Report :=
  { device_id := some "dev-b", hostname := none, platform := none, device_type := none,
    overall_status := some "healthy", metrics := .notMapping, received_at := none }

/-- A well-formed payload. -/
def r7 : Report :=
  { device_id := some "w1", hostname := some "host7", platform := some "Linux",
    device_type := some "local", overall_status := some "healthy",
    metrics := .mapping [("cpu", ⟨some "warning"⟩), ("disk", ⟨some "healthy"⟩)],
    received_at := none }

/-- A fresh device reporting an unrecognized `overall_status`. -/
def rDegraded : Report :=
  { device_id := some "beta", hostname := none, platform := none, device_type := none,
    overall_status := some "degraded",
    metrics := .mapping [("cpu", ⟨some "healthy"⟩), ("network", ⟨some "healthy"⟩)],
    received_at := some (engineStamp dtW) }

/-- A fresh device with ordinary readings. -/
def rAlpha : Report :=
  { device_id := some "alpha", hostname := some "hostA", platform := some "Linux",
    device_type := some "local", overall_status := some "healthy",
    metrics := .mapping
      [("cpu", ⟨some "warning"⟩), ("memory", ⟨some "healthy"⟩),
       ("disk", ⟨some "healthy"⟩), ("network", ⟨some "healthy"⟩)],
    received_at := some (engineStamp dtW) }

/-- A device whose `received_at` long predates the window (stale), with a
`critical` cpu reading that the rollup must therefore ignore. -/
def rOld : Report :=
  { device_id := some "old", hostname := none, platform := none, device_type := none,
    overall_status := some "critical",
    metrics := .mapping [("cpu", ⟨some "critical"⟩), ("disk", ⟨some "critical"⟩)],
    received_at := some (engineStamp ⟨2026, 3, 4, 9, 0, 0, 0⟩) }

/-- Helper: the store written by a successful ingestion. -/
lemma ingest_snd_some (store : Store) (r : Report) (d : String) (now : DateTime)
    (hd : r.device_id = some d) :
    (ingest_metrics store (some r) now).2 =
      storeSet store d { r with received_at := some (engineStamp now) } := by
  unfold ingest_metrics
  dsimp only
  split
  · rename_i heq
    rw [hd] at heq
    exact Option.noConfusion heq
  · rename_i d2 heq
    rw [hd] at heq
    obtain rfl := Option.some.inj heq
    split <;> rfl

/-! ### Claim C3 -/

/-- Claim C3 (corrected): `ingest_metrics` signals its validation error if
and only if the payload is absent/empty or lacks the `device_id` key.  A
present `device_id` — the empty string included — passes the check, because
the code tests only `'device_id' not in data`, never emptiness. -/
theorem C3_validation_iff (store : Store) (payload : Option Report) (now : DateTime) :
    (ingest_metrics store payload now).1 = IngestResult.validationError ↔
      payload = none ∨ ∃ d, payload = some d ∧ d.device_id = none := by
  cases payload with
  | none => simp [ingest_metrics]
  | some d =>
    cases hd : d.device_id with
    | none => simp [ingest_metrics, hd]
    | some did =>
      unfold ingest_metrics
      dsimp only
      rw [hd]
      dsimp only
      constructor
      · intro h
        split at h <;> simp at h
      · rintro (h | ⟨d2, hd2, hnone⟩)
        · exact absurd h (by simp)
        · obtain rfl := Option.some.inj hd2
          rw [hd] at hnone
          exact absurd hnone (by simp)

/-- Claim C3, counterexample to the claim as stated: a report whose
`device_id` is present but equal to `""` is accepted (HTTP 200) and stored
under the empty-string key, not rejected. -/
theorem C3_counterexample :
    rEmptyId.device_id = some "" ∧
    (ingest_metrics [] (some rEmptyId) dtW).1 = IngestResult.ok "" (engineStamp dtW) ∧
    lookupStore (ingest_metrics [] (some rEmptyId) dtW).2 "" =
      some { rEmptyId with received_at := some (engineStamp dtW) } :=
  ⟨rfl, rfl, rfl⟩

/-- Claim C3, witness for the amended theorem. -/
theorem C3_witness : (ingest_metrics [] none dtW).1 = IngestResult.validationError :=
  (C3_validation_iff [] none dtW).mpr (Or.inl rfl)

/-! ### Claim C4 -/

/-- Claim C4 (corrected): a call that signals the validation error leaves
the store unchanged.  (The claim's stronger statement — that every signalled
error leaves the store unchanged — fails: see the counterexample, where an
internal error raised by the post-write log line is signalled after the
entry was already stored.) -/
theorem C4_validation_preserves_store (store : Store) (payload : Option Report)
    (now : DateTime)
    (h : (ingest_metrics store payload now).1 = IngestResult.validationError) :
    (ingest_metrics store payload now).2 = store := by
  cases payload with
  | none => rfl
  | some d =>
    cases hd : d.device_id with
    | none =>
      unfold ingest_metrics
      dsimp only
      rw [hd]
    | some did =>
      exfalso
      unfold ingest_metrics at h
      dsimp only at h
      rw [hd] at h
      dsimp only at h
      split at h <;> simp at h

/-- Claim C4, counterexample to the claim as stated: a payload with
`device_id` present but a non-mapping `metrics` value is written to the
store, then the log line raises, and the handler answers HTTP 500 — an
error signalled to the caller although the Ledger was mutated. -/
theorem C4_counterexample :
    (ingest_metrics [] (some rBad) dtW).1 = IngestResult.internalError ∧
    (ingest_metrics [] (some rBad) dtW).2 =
      [("dev-b", { rBad with received_at := some (engineStamp dtW) })] :=
  ⟨rfl, rfl⟩

/-- Claim C4, witness for the amended theorem. -/
theorem C4_witness :
    (ingest_metrics [] none dtW).1 = IngestResult.validationError ∧
    (ingest_metrics [] none dtW).2 = [] :=
  ⟨rfl, C4_validation_preserves_store [] none dtW rfl⟩

/-! ### Claim C7 -/

/-- Claim C7 (confirmed): recording a report with a non-empty `device_id`
and immediately fetching that id succeeds and returns the stored payload,
whose producer-supplied fields all equal the submitted report's (only
`received_at` is overwritten by the engine, and it is no Report field). -/
theorem C7_record_then_get (store : Store) (r : Report) (d : String)
    (now now2 : DateTime) (hd : r.device_id = some d) (hne : d ≠ "") :
    ∃ stored fl ag,
      get_device_metrics (ingest_metrics store (some r) now).2 d now2 =
        DetailResult.found stored fl ag ∧
      stored.device_id = r.device_id ∧ stored.hostname = r.hostname ∧
      stored.platform = r.platform ∧ stored.device_type = r.device_type ∧
      stored.overall_status = r.overall_status ∧ stored.metrics = r.metrics := by
  rw [ingest_snd_some store r d now hd]
  unfold get_device_metrics
  rw [lookupStore_storeSet_self]
  dsimp only
  cases parseReceived ({ r with received_at := some (engineStamp now) } : Report).received_at with
  | none => exact ⟨_, _, _, rfl, rfl, rfl, rfl, rfl, rfl, rfl⟩
  | some t => exact ⟨_, _, _, rfl, rfl, rfl, rfl, rfl, rfl, rfl⟩

/-- Claim C7, witness. -/
theorem C7_witness :
    ∃ stored fl ag,
      get_device_metrics (ingest_metrics [] (some r7) dtW).2 "w1" nowW =
        DetailResult.found stored fl ag ∧
      stored.device_id = r7.device_id ∧ stored.hostname = r7.hostname ∧
      stored.platform = r7.platform ∧ stored.device_type = r7.device_type ∧
      stored.overall_status = r7.overall_status ∧ stored.metrics = r7.metrics :=
  C7_record_then_get [] r7 "w1" dtW nowW rfl (by decide)

/-! ### Claim C8 -/

/-- Claim C8 (confirmed): on an empty store the dashboard returns the fixed
no-data shape — an all-zero summary and all six `system_status` entries
`unknown`. -/
theorem C8_empty_dashboard (now : DateTime) :
    get_latest_metrics [] now = some
      { status := "no_data", devices := [],
        summary := { total_devices := 0, online := 0, offline := 0,
                     healthy := 0, warning := 0, critical := 0 },
        system_status := { network := "unknown", compute := "unknown",
                           storage := "unknown", cooling := "unknown",
                           security := "unknown", power := "unknown" } } := rfl

/-! ### Claim C9 -/

/-- Claim C9, counterexample to the claim as stated: it is false that the
read handlers release the lock before classification/aggregation and work
over a snapshot copy — in the source the classification acts of both read
handlers happen strictly inside the `with _metrics_lock:` block and no copy
of the store is ever taken. -/
theorem C9_counterexample :
    ¬(classifiesUnderLock listDevicesLockActions 0 = false ∧
      classifiesUnderLock dashboardLockActions 0 = false ∧
      EngineAction.copyStore ∈ listDevicesLockActions ∧
      EngineAction.copyStore ∈ dashboardLockActions) := by decide

/-- Claim C9 (corrected): both read handlers acquire the single lock first,
perform all classification/aggregation and response assembly while holding
it, take no snapshot copy, and release it only at the end — so a slow
dashboard computation does block ingestion, contrary to the spec's
copy-then-release discipline. -/
theorem C9_lock_held_throughout :
    classifiesUnderLock listDevicesLockActions 0 = true ∧
    classifiesUnderLock dashboardLockActions 0 = true ∧
    EngineAction.copyStore ∉ listDevicesLockActions ∧
    EngineAction.copyStore ∉ dashboardLockActions ∧
    listDevicesLockActions.head? = some EngineAction.acquireLock ∧
    dashboardLockActions.head? = some EngineAction.acquireLock ∧
    listDevicesLockActions.getLast? = some EngineAction.releaseLock ∧
    dashboardLockActions.getLast? = some EngineAction.releaseLock := by decide

/-! ### Claim C5 -/

/-- Claim C5 (confirmed): the staleness classification shared by the three
read operations holds an entry stale exactly when its timestamp is missing
or unparsable, or its age exceeds the fixed 60-second window; the list
operation's `is_stale` flags, the detail operation's `is_stale` field and
the dashboard's `is_online` flags (as its complement) all expose exactly
this classification. -/
theorem C5_staleness (store : Store) (did : String) (now : DateTime) :
    (∀ ra, isStale ra now = true ↔
      (parseReceived ra = none ∨
        ∃ t, parseReceived ra = some t ∧ nowMicros now - t > (60 : Int) * 1000000))
    ∧ (list_devices store now).map (fun e => e.is_stale) =
        store.map (fun p => isStale p.2.received_at now)
    ∧ (∀ data fl ag, get_device_metrics store did now = DetailResult.found data fl ag →
        fl = isStale data.received_at now)
    ∧ (∀ cs, dashContribs now store = some cs →
        cs.map (fun c => c.dev.is_online) =
          store.map (fun p => !isStale p.2.received_at now)) := by
  refine ⟨?_, ?_, ?_, ?_⟩
  · intro ra
    unfold isStale
    cases hp : parseReceived ra with
    | none => simp [hp]
    | some t =>
      simp only [hp, decide_eq_true_eq]
      constructor
      · intro h
        exact Or.inr ⟨t, rfl, by simpa [windowMicros, MAX_AGE_SECONDS] using h⟩
      · rintro (h | ⟨t2, ht2, h⟩)
        · exact Option.noConfusion h
        · obtain rfl := Option.some.inj ht2
          simpa [windowMicros, MAX_AGE_SECONDS] using h
  · unfold list_devices
    rw [List.map_map]
    rfl
  · intro data fl ag h
    unfold get_device_metrics at h
    cases hl : lookupStore store did with
    | none => rw [hl] at h; exact absurd h (by simp)
    | some d2 =>
      rw [hl] at h
      dsimp only at h
      cases hp : parseReceived d2.received_at with
      | none =>
        rw [hp] at h
        obtain ⟨rfl, rfl, rfl⟩ := DetailResult.found.inj h
        simp [isStale, hp]
      | some t =>
        rw [hp] at h
        obtain ⟨rfl, rfl, rfl⟩ := DetailResult.found.inj h
        simp [isStale, hp]
  · intro cs hcs
    refine dashContribs_map now store cs hcs _ _ (fun did2 data2 => ?_)
    simp [contribTemplate, isOnline_not_isStale]

/-- Claim C5, witness: a concrete unparsable timestamp is classified stale. -/
theorem C5_witness : isStale (some "not-a-timestamp") nowW = true :=
  ((C5_staleness [] "" nowW).1 (some "not-a-timestamp")).mpr (Or.inl (by decide))

/-! ### Claim C1 -/

/-- Claim C1 (corrected): in both the list and the dashboard responses the
reported device status is `offline` exactly on stale entries; a fresh entry
reports its `overall_status` verbatim — including values outside the
recognized domain — and `unknown` only when the field is absent.  (The
claim's stated defaulting of unrecognized values to `unknown` fails: see
the counterexample.) -/
theorem C1_device_status (store : Store) (now : DateTime) :
    ((list_devices store now).map (fun e => e.overall_status) =
      store.map (fun p =>
        if isStale p.2.received_at now then "offline"
        else p.2.overall_status.getD "unknown"))
    ∧ ∀ resp, get_latest_metrics store now = some resp →
        resp.devices.map (fun dv => dv.overall_status) =
          store.map (fun p =>
            if isStale p.2.received_at now then "offline"
            else p.2.overall_status.getD "unknown") := by
  constructor
  · unfold list_devices
    rw [List.map_map]
    rfl
  · intro resp h
    unfold get_latest_metrics at h
    cases store with
    | nil =>
      obtain rfl := Option.some.inj h
      rfl
    | cons q rest =>
      rw [if_neg (by simp)] at h
      cases hcs : dashContribs now (q :: rest) with
      | none => rw [hcs] at h; exact absurd h (by simp)
      | some cs =>
        rw [hcs] at h
        obtain rfl := Option.some.inj h
        dsimp only
        rw [List.map_map]
        refine dashContribs_map now (q :: rest) cs hcs _ _ (fun did2 data2 => ?_)
        rcases hb : isStale data2.received_at now <;>
          simp [contribTemplate, isOnline_not_isStale, hb]

/-- Claim C1, counterexample to the claim as stated: a fresh device whose
self-reported `overall_status` is the unrecognized string `"degraded"` is
listed with status `"degraded"`, not the `"unknown"` the claim requires. -/
theorem C1_counterexample :
    (list_devices [("beta", rDegraded)] nowW).map
        (fun e => (e.is_stale, e.overall_status)) = [(false, "degraded")] ∧
    specDeviceStatus false (some "degraded") = "unknown" := by
  constructor
  · decide
  · rfl

/-- Claim C1, witness for the amended theorem, on a store holding one fresh
device with an unrecognized status and one stale device. -/
theorem C1_witness :
    ((list_devices [("beta", rDegraded), ("old", rOld)] nowW).map
        (fun e => e.overall_status) =
      [("beta", rDegraded), ("old", rOld)].map (fun p =>
        if isStale p.2.received_at nowW then "offline"
        else p.2.overall_status.getD "unknown")) :=
  (C1_device_status [("beta", rDegraded), ("old", rOld)] nowW).1

/-! ### Claim C2 -/

/-- Claim C2 (confirmed): on every dashboard response from a non-empty
store, each of the three data-driven subsystem rollups (`network` from the
`network` readings, `compute` from `cpu`, `storage` from `disk`) equals the
spec's rollup rule applied to the statuses collected from the fresh
devices' corresponding readings; stale devices contribute nothing. -/
theorem C2_subsystem_rollups (store : Store) (now : DateTime)
    (resp : DashboardResponse) (hne : store ≠ [])
    (h : get_latest_metrics store now = some resp) :
    resp.system_status.network =
      specSubsystemRollup (subsystemStatuses store now "network") ∧
    resp.system_status.compute =
      specSubsystemRollup (subsystemStatuses store now "cpu") ∧
    resp.system_status.storage =
      specSubsystemRollup (subsystemStatuses store now "disk") := by
  unfold get_latest_metrics at h
  rw [if_neg (by simp [hne])] at h
  cases hcs : dashContribs now store with
  | none => rw [hcs] at h; exact absurd h (by simp)
  | some cs =>
    rw [hcs] at h
    obtain rfl := Option.some.inj h
    refine ⟨?_, ?_, ?_⟩ <;>
      · dsimp only
        rw [aggregate_status_eq_spec]
        congr 1
        refine dashContribs_filterMap now store cs hcs _ _ (fun did2 data2 => ?_)
        rfl

/-- Claim C2, witness: a concrete two-device store — one fresh device with
`cpu` `warning` and one stale device with `cpu`/`disk` `critical` that must
be ignored. -/
theorem C2_witness :
    (aggregate_status ["warning"] =
        specSubsystemRollup (subsystemStatuses [("alpha", rAlpha), ("old", rOld)] nowW "cpu") ∧
      aggregate_status ["healthy"] =
        specSubsystemRollup (subsystemStatuses [("alpha", rAlpha), ("old", rOld)] nowW "network") ∧
      aggregate_status ["healthy"] =
        specSubsystemRollup (subsystemStatuses [("alpha", rAlpha), ("old", rOld)] nowW "disk")) := by
  have h := C2_subsystem_rollups [("alpha", rAlpha), ("old", rOld)] nowW _
    (by decide) rfl
  exact ⟨h.2.1, h.1, h.2.2⟩

/-! ### Claim C6 -/

lemma beq_decide (a b : String) : (a == b) = decide (a = b) := by
  by_cases h : a = b <;> simp [h]

/-- Claim C6 (confirmed): on every dashboard response from a non-empty
store, `total_devices` counts every entry, `online`/`offline` count exactly
the fresh/stale entries, and each health bucket counts exactly the fresh
devices whose `overall_status` equals that value — stale devices land in no
health bucket. -/
theorem C6_summary_counts (store : Store) (now : DateTime)
    (resp : DashboardResponse) (hne : store ≠ [])
    (h : get_latest_metrics store now = some resp) :
    resp.summary.total_devices = store.length ∧
    resp.summary.online = store.countP (fun p => !isStale p.2.received_at now) ∧
    resp.summary.offline = store.countP (fun p => isStale p.2.received_at now) ∧
    resp.summary.healthy = store.countP (fun p =>
      !isStale p.2.received_at now && decide (p.2.overall_status = some "healthy")) ∧
    resp.summary.warning = store.countP (fun p =>
      !isStale p.2.received_at now && decide (p.2.overall_status = some "warning")) ∧
    resp.summary.critical = store.countP (fun p =>
      !isStale p.2.received_at now && decide (p.2.overall_status = some "critical")) := by
  unfold get_latest_metrics at h
  rw [if_neg (by simp [hne])] at h
  cases hcs : dashContribs now store with
  | none => rw [hcs] at h; exact absurd h (by simp)
  | some cs =>
    rw [hcs] at h
    obtain rfl := Option.some.inj h
    refine ⟨rfl, ?_, ?_, ?_, ?_, ?_⟩ <;>
      refine dashContribs_countP now store cs hcs _ _ (fun did2 data2 => ?_)
    · simp [contribTemplate, isOnline_not_isStale]
    · simp [contribTemplate, isOnline_not_isStale]
    · cases ho : data2.overall_status <;>
        simp [contribTemplate, isOnline_not_isStale, ho, beq_decide]
    · cases ho : data2.overall_status <;>
        simp [contribTemplate, isOnline_not_isStale, ho, beq_decide]
    · cases ho : data2.overall_status <;>
        simp [contribTemplate, isOnline_not_isStale, ho, beq_decide]

/-- Claim C6, witness: one fresh healthy device, one fresh device with an
unrecognized status (no bucket), one stale critical device (only
`offline`). -/
theorem C6_witness :
    (3 = ([("alpha", rAlpha), ("beta", rDegraded), ("old", rOld)] : Store).length ∧
      2 = ([("alpha", rAlpha), ("beta", rDegraded), ("old", rOld)] : Store).countP
        (fun p => !isStale p.2.received_at nowW) ∧
      1 = ([("alpha", rAlpha), ("beta", rDegraded), ("old", rOld)] : Store).countP
        (fun p => isStale p.2.received_at nowW) ∧
      1 = ([("alpha", rAlpha), ("beta", rDegraded), ("old", rOld)] : Store).countP
        (fun p => !isStale p.2.received_at nowW &&
          decide (p.2.overall_status = some "healthy")) ∧
      0 = ([("alpha", rAlpha), ("beta", rDegraded), ("old", rOld)] : Store).countP
        (fun p => !isStale p.2.received_at nowW &&
          decide (p.2.overall_status = some "warning")) ∧
      0 = ([("alpha", rAlpha), ("beta", rDegraded), ("old", rOld)] : Store).countP
        (fun p => !isStale p.2.received_at nowW &&
          decide (p.2.overall_status = some "critical"))) :=
  C6_summary_counts [("alpha", rAlpha), ("beta", rDegraded), ("old", rOld)] nowW _
    (by decide) rfl

/-! ### Claim C10 -/

/-- Stores reachable from the empty store using only the ingestion
operation, driven by arbitrary payloads and engine-clock instants (every
Python `datetime.utcnow()` value satisfies `Valid`). -/
inductive Reachable : Store → Prop
  | nil : Reachable []
  | step (s : Store) (payload : Option Report) (now : DateTime) :
      Reachable s → Valid now → Reachable (ingest_metrics s payload now).2

/-- Claim C10 (confirmed): every entry of a store reachable through
ingestion alone carries an engine-assigned `received_at` stamp produced by
a valid clock instant, that stamp parses back (after the `Z` replacement)
to that very instant, and therefore the unparsable-timestamp fallback
branch is never taken for it: its staleness is always the pure age
comparison. -/
theorem C10_reachable_timestamps (store : Store) (hr : Reachable store) :
    ∀ did data, (did, data) ∈ store →
      ∃ dt, Valid dt ∧ data.received_at = some (engineStamp dt) ∧
        parseReceived data.received_at = some (civilMicrosDT dt) ∧
        ∀ now2, isStale data.received_at now2 =
          decide (nowMicros now2 - civilMicrosDT dt > windowMicros) := by
  induction hr with
  | nil => intro did data h; exact absurd h (List.not_mem_nil _)
  | step s payload now hs hv ih =>
    intro did data h
    cases payload with
    | none => exact ih did data h
    | some r =>
      cases hd : r.device_id with
      | none =>
        rw [show (ingest_metrics s (some r) now).2 = s by
          unfold ingest_metrics; dsimp only; rw [hd]] at h
        exact ih did data h
      | some d =>
        rw [ingest_snd_some s r d now hd] at h
        rcases mem_storeSet _ _ _ _ h with h2 | h2
        · exact ih did data h2
        · obtain ⟨rfl, rfl⟩ := Prod.mk.inj h2
          refine ⟨now, hv, rfl, parse_engineStamp now hv, fun now2 => ?_⟩
          simp [isStale, parse_engineStamp now hv]

/-- Claim C10, witness: the store obtained by one concrete successful
ingestion. -/
theorem C10_witness :
    ∃ dt, Valid dt ∧
      ({ r7 with received_at := some (engineStamp dtW) } : Report).received_at =
        some (engineStamp dt) ∧
      parseReceived ({ r7 with received_at := some (engineStamp dtW) } : Report).received_at =
        some (civilMicrosDT dt) ∧
      ∀ now2, isStale ({ r7 with received_at := some (engineStamp dtW) } : Report).received_at now2 =
        decide (nowMicros now2 - civilMicrosDT dt > windowMicros) :=
  C10_reachable_timestamps (ingest_metrics [] (some r7) dtW).2
    (Reachable.step [] (some r7) dtW Reachable.nil (by decide)) "w1"
    { r7 with received_at := some (engineStamp dtW) } (by decide)

end SysMon
